import Mathlib

/-!
Shallow embedding of the labook posts backend.

The business layer is translated from `PostsBusiness`
(getPosts, createPost, editPost, putLike, deletePost).  The collaborators it
calls — `PostsDatabase`, `UserDatabase`, `TokenManager`, `IdGenerator` and the
`Post` model class — are not part of the business sources, so they are
modelled from the spec (sections 3 and 6): the relational store is a record of
three row lists, the token manager is a function from token strings to an
optional payload, and the id generator and the clock are passed in as explicit
string arguments.  Machine numbers (SQLite INTEGER counters) are modelled as
`Int`.  Thrown errors (`BadRequestError`, `NotFoundError`) become an `Except`
value paired with the store state at the moment of the throw, so that "no side
effects on failure" is a provable statement rather than a modelling artifact.
-/

namespace Labook

/-- A row of the `users` table (schema in `dados.sql`). -/
structure UserRow where
  id : String
  name : String
  email : String
  password : String
  role : String
  created_at : String
deriving DecidableEq, Repr

/-- A row of the `posts` table (schema in `dados.sql`): counters are SQLite
INTEGER columns, modelled as `Int`. -/
structure PostRow where
  id : String
  creator_id : String
  content : String
  likes : Int
  dislikes : Int
  created_at : String
  updated_at : String
deriving DecidableEq, Repr

/-- A row of the `likes_dislikes` table (schema in `dados.sql`). -/
structure ReactionRow where
  user_id : String
  post_id : String
  like : Bool
deriving DecidableEq, Repr

/-- The relational store: the three tables as row lists. -/
structure DBState where
  users : List UserRow
  posts : List PostRow
  reactions : List ReactionRow
deriving DecidableEq, Repr

/-- The decoded token payload (`TokenManager.getPayload`); spec section 6:
`decode(token) -> \x7bid, role\x7d | null`. -/
structure Payload where
  id : String
  role : String
deriving DecidableEq, Repr

/-- Errors thrown by the business layer: `BadRequestError` and
`NotFoundError`, each carrying its message. -/
inductive BizError where
  | badRequest (msg : String) : BizError
  | notFound (msg : String) : BizError
deriving DecidableEq, Repr

/-- An output DTO carrying a single confirmation message
(CreatePost/EditPost/DeletePost/PutLike output DTOs all have this shape). -/
structure MessageDTO where
  message : String
deriving DecidableEq, Repr

/-- The row shape returned by the post store joined with the creator name
(`PostOutputDB` in the sources). -/
structure PostOutputDB where
  id : String
  creator_id : String
  content : String
  likes : Int
  dislikes : Int
  created_at : String
  updated_at : String
  name : String
deriving DecidableEq, Repr

/-- The creator sub-record of the getPosts output DTO
(`src/dtos/post/getPosts.dto.ts`). -/
structure Creator where
  id : String
  name : String
deriving DecidableEq, Repr

/-- `GetPostsOutputDTO` from `src/dtos/post/getPosts.dto.ts`. -/
structure GetPostsOutput where
  id : String
  content : String
  likes : Int
  dislikes : Int
  createdAt : String
  updatedAt : String
  creator : Creator
deriving DecidableEq, Repr

/-- The `Post` model class: constructed positionally as in
`new Post(id, content, likes, dislikes, created_at, updated_at, creator)`
at `PostsBusiness.getPosts`; its getters are field reads. -/
structure Post where
  id : String
  content : String
  likes : Int
  dislikes : Int
  createdAt : String
  updatedAt : String
  creator : Creator
deriving DecidableEq, Repr

def Post.getId (p : Post) : String := p.id

def Post.getContent (p : Post) : String := p.content

def Post.getLikes (p : Post) : Int := p.likes

def Post.getDislikes (p : Post) : Int := p.dislikes

def Post.getCreatedAt (p : Post) : String := p.createdAt

def Post.getUpdatedAt (p : Post) : String := p.updatedAt

def Post.getCreator (p : Post) : Creator := p.creator

/-- `GetPostsInputDTO` from `src/dtos/post/getPosts.dto.ts`. -/
structure GetPostsInput where
  token : String
  query : Option String
deriving DecidableEq, Repr

/-- `CreatePostInputDTO`: content and token. -/
structure CreatePostInput where
  content : String
  token : String
deriving DecidableEq, Repr

/-- `EditPostInputDTO`: id to edit, new content and token. -/
structure EditPostInput where
  idToEdit : String
  newContent : String
  token : String
deriving DecidableEq, Repr

/-- `PutLikeInputDTO`: post id, desired reaction boolean and token. -/
structure PutLikeInput where
  postId : String
  like : Bool
  token : String
deriving DecidableEq, Repr

/-- `DeletePostInputDTO`: id to delete and token. -/
structure DeletePostInput where
  idToDelete : String
  token : String
deriving DecidableEq, Repr

/-- `InputLikeDB` from the sources: user id, post id and reaction boolean. -/
structure InputLikeDB where
  userId : String
  postId : String
  like : Bool
deriving DecidableEq, Repr

/-- SQL row predicate for a reaction keyed by (user_id, post_id). -/
def reactionKey (userId postId : String) (r : ReactionRow) : Bool :=
  r.user_id == userId && r.post_id == postId

/-- SQL row predicate for a post keyed by id. -/
def postKey (postId : String) (p : PostRow) : Bool :=
  p.id == postId

/-- Modelled from the spec: `UserDatabase.findUserById` is the user store
lookup `getById(id) -> UserRow | null` (spec section 6). -/
def findUserById (s : DBState) (userId : String) : Option UserRow :=
  s.users.find? (fun u => u.id == userId)

/-- Modelled from the spec: `PostsDatabase.getPostByIdDBForm` is the post
store lookup `getById(id) -> PostRow | null` (spec section 6). -/
def getPostByIdDBForm (s : DBState) (postId : String) : Option PostRow :=
  s.posts.find? (postKey postId)

/-- Modelled from the spec: `PostsDatabase.getPostByIdOutputForm` is the post
store lookup joined with the creator name (spec sections 4.2 and 6). -/
def getPostByIdOutputForm (s : DBState) (postId : String) : Option PostOutputDB :=
  (s.posts.find? (postKey postId)).bind fun p =>
    (s.users.find? (fun u => u.id == p.creator_id)).map fun u =>
      ⟨p.id, p.creator_id, p.content, p.likes, p.dislikes,
        p.created_at, p.updated_at, u.name⟩

/-- Modelled from the spec: `PostsDatabase.getLike` is
`getReaction(userId, postId) -> ReactionRow | null` (spec section 6). -/
def getLike (s : DBState) (inp : InputLikeDB) : Option ReactionRow :=
  s.reactions.find? (reactionKey inp.userId inp.postId)

/-- Modelled from the spec: `PostsDatabase.createLike` is `insertReaction`
(spec section 6), inserting the row for the (user, post) pair. -/
def createLike (s : DBState) (inp : InputLikeDB) : DBState :=
  { s with reactions := ⟨inp.userId, inp.postId, inp.like⟩ :: s.reactions }

/-- Modelled from the spec: `PostsDatabase.deleteLike` is `deleteReaction`
(spec section 6), deleting the rows keyed by (user_id, post_id). -/
def deleteLike (s : DBState) (inp : InputLikeDB) : DBState :=
  { s with reactions :=
      s.reactions.filter (fun r => !(reactionKey inp.userId inp.postId r)) }

/-- Modelled from the spec: `PostsDatabase.changeLike` is `updateReaction`
(spec section 6), overwriting the reaction boolean of the rows keyed by
(user_id, post_id). -/
def changeLike (s : DBState) (inp : InputLikeDB) : DBState :=
  { s with reactions := s.reactions.map (fun r =>
      if reactionKey inp.userId inp.postId r then { r with like := inp.like } else r) }

/-- Modelled from the spec: `PostsDatabase.addLikeInPost` is the counter
increment keyed by post id and reaction kind (spec sections 4.6 and 6). -/
def addLikeInPost (s : DBState) (inp : InputLikeDB) : DBState :=
  { s with posts := s.posts.map (fun p =>
      if postKey inp.postId p then
        if inp.like then { p with likes := p.likes + 1 }
        else { p with dislikes := p.dislikes + 1 }
      else p) }

/-- Modelled from the spec: `PostsDatabase.decreaseLikeInPost` is the counter
decrement keyed by post id and reaction kind (spec sections 4.6 and 6). -/
def decreaseLikeInPost (s : DBState) (inp : InputLikeDB) : DBState :=
  { s with posts := s.posts.map (fun p =>
      if postKey inp.postId p then
        if inp.like then { p with likes := p.likes - 1 }
        else { p with dislikes := p.dislikes - 1 }
      else p) }

/-- Modelled from the spec: `PostsDatabase.overwriteLikeInPost` is the counter
overwrite of spec section 4.6: on a switch to like, decrement the dislike
counter and increment the like counter, and symmetrically on a switch to
dislike (`inp.like` is the new, requested value). -/
def overwriteLikeInPost (s : DBState) (inp : InputLikeDB) : DBState :=
  { s with posts := s.posts.map (fun p =>
      if postKey inp.postId p then
        if inp.like then { p with likes := p.likes + 1, dislikes := p.dislikes - 1 }
        else { p with likes := p.likes - 1, dislikes := p.dislikes + 1 }
      else p) }

/-- Modelled from the spec: `PostsDatabase.createPost` is `insert(PostRow)`
(spec section 6); the schema defaults fill the counters with zero and the
timestamps with the current time (spec section 4.3). -/
def insertPost (s : DBState) (id creator_id content now : String) : DBState :=
  { s with posts := s.posts ++ [⟨id, creator_id, content, 0, 0, now, now⟩] }

/-- Modelled from the spec: `PostsDatabase.editPost` is
`update(id, \x7bcontent, updated_at\x7d)` (spec section 6). -/
def editPostDB (s : DBState) (idToEdit newContent now : String) : DBState :=
  { s with posts := s.posts.map (fun p =>
      if postKey idToEdit p then { p with content := newContent, updated_at := now }
      else p) }

/-- Modelled from the spec: `PostsDatabase.deletePost` is `delete(id)`
(spec section 6); the store cascades the associated reactions
(spec section 4.5 and the `ON DELETE CASCADE` clauses of `dados.sql`). -/
def deletePostDB (s : DBState) (id : String) : DBState :=
  { s with posts := s.posts.filter (fun p => !(postKey id p)),
           reactions := s.reactions.filter (fun r => !(r.post_id == id)) }

/-- `PostsBusiness.getPosts`.  The store fetch
`postsDatabase.getPosts(query)` is not part of the business sources, so the
row list it returned is abstracted as the `rows` argument; the operation
performs no store writes. -/
def getPosts (gp : String → Option Payload) (rows : List PostOutputDB)
    (inp : GetPostsInput) : Except BizError (List GetPostsOutput) :=
  match gp inp.token with
  | none => .error (.badRequest "Token inválido")
  | some _ =>
    let checkedPosts : List Post := rows.map (fun post =>
      Post.mk post.id post.content post.likes post.dislikes
        post.created_at post.updated_at ⟨post.creator_id, post.name⟩)
    .ok (checkedPosts.map (fun post =>
      { id := post.getId
        content := post.getContent
        likes := post.getLikes
        dislikes := post.getDislikes
        createdAt := post.getCreatedAt
        updatedAt := post.getUpdatedAt
        creator := post.getCreator }))

/-- `PostsBusiness.createPost`.  The id generator and the clock are passed in
as `genId` and `now`. -/
def createPost (gp : String → Option Payload) (genId now : String)
    (inp : CreatePostInput) (s : DBState) : Except BizError MessageDTO × DBState :=
  match gp inp.token with
  | none => (.error (.badRequest "Token inválido"), s)
  | some payload =>
    match getPostByIdDBForm s genId with
    | some _ => (.error (.badRequest "Post já existe."), s)
    | none =>
      (.ok ⟨"Post criado com sucesso."⟩, insertPost s genId payload.id inp.content now)

/-- `PostsBusiness.editPost`.  The clock is passed in as `now`. -/
def editPost (gp : String → Option Payload) (now : String)
    (inp : EditPostInput) (s : DBState) : Except BizError MessageDTO × DBState :=
  match gp inp.token with
  | none => (.error (.badRequest "Token inválido"), s)
  | some payload =>
    match getPostByIdOutputForm s inp.idToEdit with
    | none => (.error (.notFound "Não há post correspondente ao \x27id\x27 informado"), s)
    | some postToEdit =>
      if payload.id ≠ postToEdit.creator_id then
        (.error (.badRequest
          "O post deve pertencer ao usuário logado para que possa editá-lo"), s)
      else
        (.ok ⟨"Post modificado com sucesso."⟩, editPostDB s inp.idToEdit inp.newContent now)

/-- `PostsBusiness.putLike`: the three-state like/dislike toggle. -/
def putLike (gp : String → Option Payload) (inp : PutLikeInput)
    (s : DBState) : Except BizError MessageDTO × DBState :=
  match gp inp.token with
  | none => (.error (.badRequest "Token inválido"), s)
  | some payload =>
    let userId := payload.id
    let inputLikeDB : InputLikeDB := ⟨userId, inp.postId, inp.like⟩
    match getPostByIdDBForm s inp.postId with
    | none => (.error (.notFound "Post não existe."), s)
    | some postDB =>
      match findUserById s userId with
      | none => (.error (.notFound "Usuário não existe."), s)
      | some _ =>
        if postDB.creator_id = userId then
          (.error (.badRequest "O usuário não pode reagir ao próprio post."), s)
        else
          match getLike s inputLikeDB with
          | none =>
            (.ok ⟨"Like/Dislike enviado com sucesso."⟩,
              addLikeInPost (createLike s inputLikeDB) inputLikeDB)
          | some likeDB =>
            if likeDB.like = inp.like then
              (.ok ⟨"Like/Dislike removido com sucesso."⟩,
                decreaseLikeInPost (deleteLike s inputLikeDB) inputLikeDB)
            else
              (.ok ⟨"Like/Dislike alterado com sucesso."⟩,
                overwriteLikeInPost (changeLike s inputLikeDB) inputLikeDB)

/-- `PostsBusiness.deletePost`. -/
def deletePost (gp : String → Option Payload) (inp : DeletePostInput)
    (s : DBState) : Except BizError MessageDTO × DBState :=
  match gp inp.token with
  | none => (.error (.badRequest "Token inválido"), s)
  | some payload =>
    match getPostByIdDBForm s inp.idToDelete with
    | none => (.error (.notFound "\x27id\x27 informado não possui posts."), s)
    | some postExists =>
      if payload.id ≠ postExists.creator_id then
        (.error (.badRequest
          "O post deve pertencer ao usuário logado para que possa deletá-lo"), s)
      else
        (.ok ⟨"Post deletado com sucesso."⟩, deletePostDB s inp.idToDelete)

/-- Number of reaction rows referencing the post `postId` with the given
reaction boolean. -/
def countReactions (rs : List ReactionRow) (postId : String) (b : Bool) : Nat :=
  rs.countP (fun r => r.post_id == postId && r.like == b)

/-- The counter invariant of spec section 3: every post carries counters equal
to the number of reaction rows referencing it of each kind. -/
def CountersInvariant (s : DBState) : Prop :=
  ∀ p ∈ s.posts, p.likes = (countReactions s.reactions p.id true : Int) ∧
    p.dislikes = (countReactions s.reactions p.id false : Int)

/-- The uniqueness constraint of spec section 3: at most one reaction row per
(user_id, post_id) pair. -/
def ReactionsUnique (s : DBState) : Prop :=
  s.reactions.Pairwise (fun a b => ¬(a.user_id = b.user_id ∧ a.post_id = b.post_id))

/-- The state reached after a finite sequence of putLike calls. -/
def runPutLikes (gp : String → Option Payload) (calls : List PutLikeInput)
    (s : DBState) : DBState :=
  calls.foldl (fun st c => (putLike gp c st).2) s

/-- Sample user u001 from `dados.sql`, used in concrete instantiations. -/
def u001 : UserRow :=
  ⟨"u001", "Fulano", "fulano@email.com", "fulano123", "NORMAL", "2023-01-01"⟩

/-- Sample user u002 from `dados.sql`. -/
def u002 : UserRow :=
  ⟨"u002", "Beltrana", "beltrana@email.com", "beltrana00", "NORMAL", "2023-01-01"⟩

/-- Sample post p001 from `dados.sql`, created by u001 with zero counters. -/
def p001 : PostRow :=
  ⟨"p001", "u001", "lindo dia.", 0, 0, "2023-01-02", "2023-01-02"⟩

/-- Sample store state: two users, one post, no reactions. -/
def s0 : DBState := ⟨[u001, u002], [p001], []⟩

/-- Sample token environment mapping two known tokens to payloads. -/
def gp0 : String → Option Payload := fun t =>
  if t = "token-u001" then some ⟨"u001", "NORMAL"⟩
  else if t = "token-u002" then some ⟨"u002", "NORMAL"⟩
  else none

theorem reactionKey_eq_true (u p : String) (r : ReactionRow) :
    reactionKey u p r = true ↔ r.user_id = u ∧ r.post_id = p := by
  simp [reactionKey]

theorem postKey_eq_true (pid : String) (p : PostRow) :
    postKey pid p = true ↔ p.id = pid := by
  simp [postKey]

theorem countReactions_cons (r : ReactionRow) (rs : List ReactionRow)
    (pid : String) (b : Bool) :
    countReactions (r :: rs) pid b =
      countReactions rs pid b + (if r.post_id = pid ∧ r.like = b then 1 else 0) := by
  simp [countReactions, List.countP_cons]

theorem countReactions_append (l1 l2 : List ReactionRow) (pid : String) (b : Bool) :
    countReactions (l1 ++ l2) pid b = countReactions l1 pid b + countReactions l2 pid b := by
  simp [countReactions, List.countP_append]

theorem countReactions_middle (l1 l2 : List ReactionRow) (r : ReactionRow)
    (pid : String) (b : Bool) :
    countReactions (l1 ++ r :: l2) pid b =
      countReactions (l1 ++ l2) pid b + (if r.post_id = pid ∧ r.like = b then 1 else 0) := by
  rw [countReactions_append, countReactions_append, countReactions_cons]
  omega

theorem find?_reactionKey_split (u p : String) (r : ReactionRow) :
    ∀ (l : List ReactionRow),
      l.Pairwise (fun a b => ¬(a.user_id = b.user_id ∧ a.post_id = b.post_id)) →
      l.find? (reactionKey u p) = some r →
      ∃ l1 l2, l = l1 ++ r :: l2 ∧
        (∀ x ∈ l1, reactionKey u p x = false) ∧
        (∀ x ∈ l2, reactionKey u p x = false) := by
  intro l
  induction l with
  | nil => intro _ h; simp at h
  | cons a t ih =>
    intro hp hf
    rw [List.pairwise_cons] at hp
    by_cases ha : reactionKey u p a = true
    · rw [List.find?_cons_of_pos _ ha] at hf
      obtain rfl : a = r := by injection hf
      refine ⟨[], t, by simp, by simp, ?_⟩
      intro x hx
      have hkey := hp.1 x hx
      rw [reactionKey_eq_true] at ha
      by_contra hxk
      rw [Bool.not_eq_false, reactionKey_eq_true] at hxk
      exact hkey ⟨ha.1.trans hxk.1.symm, ha.2.trans hxk.2.symm⟩
    · rw [List.find?_cons_of_neg _ ha] at hf
      obtain ⟨l1, l2, hsplit, h1, h2⟩ := ih hp.2 hf
      refine ⟨a :: l1, l2, by rw [hsplit]; rfl, ?_, h2⟩
      intro x hx
      rcases List.mem_cons.mp hx with hx | hx
      · subst hx
        exact Bool.not_eq_true _ ▸ (eq_false_of_ne_true ha)
      · exact h1 x hx

theorem filter_not_key_split (u p : String) (r : ReactionRow) (l1 l2 : List ReactionRow)
    (h1 : ∀ x ∈ l1, reactionKey u p x = false)
    (h2 : ∀ x ∈ l2, reactionKey u p x = false)
    (hr : reactionKey u p r = true) :
    (l1 ++ r :: l2).filter (fun x => !(reactionKey u p x)) = l1 ++ l2 := by
  rw [List.filter_append, List.filter_cons]
  have e1 : (l1.filter (fun x => !(reactionKey u p x))) = l1 :=
    List.filter_eq_self.mpr (fun x hx => by rw [h1 x hx]; rfl)
  have e2 : (l2.filter (fun x => !(reactionKey u p x))) = l2 :=
    List.filter_eq_self.mpr (fun x hx => by rw [h2 x hx]; rfl)
  rw [e1, e2, hr]
  simp

theorem map_change_key_split (u p : String) (b : Bool) (r : ReactionRow)
    (l1 l2 : List ReactionRow)
    (h1 : ∀ x ∈ l1, reactionKey u p x = false)
    (h2 : ∀ x ∈ l2, reactionKey u p x = false)
    (hr : reactionKey u p r = true) :
    (l1 ++ r :: l2).map
        (fun x => if reactionKey u p x then { x with like := b } else x) =
      l1 ++ { r with like := b } :: l2 := by
  rw [List.map_append, List.map_cons]
  have e1 : l1.map (fun x => if reactionKey u p x then { x with like := b } else x) = l1 := by
    conv_rhs => rw [show l1 = l1.map id from (List.map_id l1).symm]
    refine List.map_congr_left ?_
    intro x hx
    simp [h1 x hx]
  have e2 : l2.map (fun x => if reactionKey u p x then { x with like := b } else x) = l2 := by
    conv_rhs => rw [show l2 = l2.map id from (List.map_id l2).symm]
    refine List.map_congr_left ?_
    intro x hx
    simp [h2 x hx]
  rw [e1, e2, hr]
  simp

theorem inv_insert_step (s : DBState) (inp : InputLikeDB)
    (hinv : CountersInvariant s) :
    CountersInvariant (addLikeInPost (createLike s inp) inp) := by
  intro p hp
  rw [show (addLikeInPost (createLike s inp) inp).posts =
      s.posts.map (fun p =>
        if postKey inp.postId p = true then
          if inp.like = true then { p with likes := p.likes + 1 }
          else { p with dislikes := p.dislikes + 1 }
        else p) from rfl] at hp
  obtain ⟨q, hq, rfl⟩ := List.mem_map.mp hp
  obtain ⟨hql, hqd⟩ := hinv q hq
  have hct : countReactions
      ((⟨inp.userId, inp.postId, inp.like⟩ : ReactionRow) :: s.reactions) q.id true =
      countReactions s.reactions q.id true +
        (if inp.postId = q.id ∧ inp.like = true then 1 else 0) :=
    countReactions_cons _ _ _ _
  have hcf : countReactions
      ((⟨inp.userId, inp.postId, inp.like⟩ : ReactionRow) :: s.reactions) q.id false =
      countReactions s.reactions q.id false +
        (if inp.postId = q.id ∧ inp.like = false then 1 else 0) :=
    countReactions_cons _ _ _ _
  by_cases hid : q.id = inp.postId
  · have hkey : postKey inp.postId q = true := by simp [postKey, hid]
    by_cases hl : inp.like = true
    · rw [if_pos hkey, if_pos hl]
      refine ⟨?_, ?_⟩
      · show q.likes + 1 = (countReactions
          ((⟨inp.userId, inp.postId, inp.like⟩ : ReactionRow) :: s.reactions) q.id true : Int)
        rw [hct, if_pos ⟨hid.symm, hl⟩]
        omega
      · show q.dislikes = (countReactions
          ((⟨inp.userId, inp.postId, inp.like⟩ : ReactionRow) :: s.reactions) q.id false : Int)
        rw [hcf, if_neg (by simp [hl])]
        omega
    · have hlf : inp.like = false := by
        rwa [Bool.not_eq_true] at hl
      rw [if_pos hkey, if_neg hl]
      refine ⟨?_, ?_⟩
      · show q.likes = (countReactions
          ((⟨inp.userId, inp.postId, inp.like⟩ : ReactionRow) :: s.reactions) q.id true : Int)
        rw [hct, if_neg (by simp [hlf])]
        omega
      · show q.dislikes + 1 = (countReactions
          ((⟨inp.userId, inp.postId, inp.like⟩ : ReactionRow) :: s.reactions) q.id false : Int)
        rw [hcf, if_pos ⟨hid.symm, hlf⟩]
        omega
  · have hnkey : ¬(postKey inp.postId q = true) := by
      simp [postKey, hid]
    rw [if_neg hnkey]
    refine ⟨?_, ?_⟩
    · show q.likes = (countReactions
        ((⟨inp.userId, inp.postId, inp.like⟩ : ReactionRow) :: s.reactions) q.id true : Int)
      rw [hct, if_neg (fun hcon => hid hcon.1.symm)]
      omega
    · show q.dislikes = (countReactions
        ((⟨inp.userId, inp.postId, inp.like⟩ : ReactionRow) :: s.reactions) q.id false : Int)
      rw [hcf, if_neg (fun hcon => hid hcon.1.symm)]
      omega

theorem inv_delete_step (s : DBState) (inp : InputLikeDB) (r : ReactionRow)
    (huniq : ReactionsUnique s) (hfind : getLike s inp = some r)
    (hlike : r.like = inp.like) (hinv : CountersInvariant s) :
    CountersInvariant (decreaseLikeInPost (deleteLike s inp) inp) := by
  obtain ⟨l1, l2, hsplit, h1, h2⟩ :=
    find?_reactionKey_split inp.userId inp.postId r s.reactions huniq hfind
  have hr : reactionKey inp.userId inp.postId r = true := List.find?_some hfind
  have hrp : r.post_id = inp.postId := ((reactionKey_eq_true _ _ _).mp hr).2
  intro p hp
  rw [show (decreaseLikeInPost (deleteLike s inp) inp).posts =
      s.posts.map (fun p =>
        if postKey inp.postId p = true then
          if inp.like = true then { p with likes := p.likes - 1 }
          else { p with dislikes := p.dislikes - 1 }
        else p) from rfl] at hp
  rw [show (decreaseLikeInPost (deleteLike s inp) inp).reactions =
      List.filter (fun x => !(reactionKey inp.userId inp.postId x)) s.reactions from rfl,
    hsplit, filter_not_key_split _ _ _ _ _ h1 h2 hr]
  obtain ⟨q, hq, rfl⟩ := List.mem_map.mp hp
  obtain ⟨hql, hqd⟩ := hinv q hq
  rw [hsplit, countReactions_middle] at hql
  rw [hsplit, countReactions_middle] at hqd
  by_cases hid : q.id = inp.postId
  · have hkey : postKey inp.postId q = true := by simp [postKey, hid]
    by_cases hl : inp.like = true
    · have hrl : r.like = true := hlike.trans hl
      rw [if_pos ⟨hrp.trans hid.symm, hrl⟩] at hql
      rw [if_neg (by simp [hrl])] at hqd
      rw [if_pos hkey, if_pos hl]
      refine ⟨?_, ?_⟩
      · show q.likes - 1 = (countReactions (l1 ++ l2) q.id true : Int)
        omega
      · show q.dislikes = (countReactions (l1 ++ l2) q.id false : Int)
        omega
    · have hlf : inp.like = false := by
        rwa [Bool.not_eq_true] at hl
      have hrl : r.like = false := hlike.trans hlf
      rw [if_neg (by simp [hrl])] at hql
      rw [if_pos ⟨hrp.trans hid.symm, hrl⟩] at hqd
      rw [if_pos hkey, if_neg hl]
      refine ⟨?_, ?_⟩
      · show q.likes = (countReactions (l1 ++ l2) q.id true : Int)
        omega
      · show q.dislikes - 1 = (countReactions (l1 ++ l2) q.id false : Int)
        omega
  · have hnkey : ¬(postKey inp.postId q = true) := by
      simp [postKey, hid]
    rw [if_neg (fun hcon => hid ((hrp ▸ hcon.1 : inp.postId = q.id)).symm)] at hql
    rw [if_neg (fun hcon => hid ((hrp ▸ hcon.1 : inp.postId = q.id)).symm)] at hqd
    rw [if_neg hnkey]
    refine ⟨?_, ?_⟩
    · show q.likes = (countReactions (l1 ++ l2) q.id true : Int)
      omega
    · show q.dislikes = (countReactions (l1 ++ l2) q.id false : Int)
      omega

theorem inv_change_step (s : DBState) (inp : InputLikeDB) (r : ReactionRow)
    (huniq : ReactionsUnique s) (hfind : getLike s inp = some r)
    (hlike : r.like ≠ inp.like) (hinv : CountersInvariant s) :
    CountersInvariant (overwriteLikeInPost (changeLike s inp) inp) := by
  obtain ⟨l1, l2, hsplit, h1, h2⟩ :=
    find?_reactionKey_split inp.userId inp.postId r s.reactions huniq hfind
  have hr : reactionKey inp.userId inp.postId r = true := List.find?_some hfind
  have hrp : r.post_id = inp.postId := ((reactionKey_eq_true _ _ _).mp hr).2
  intro p hp
  rw [show (overwriteLikeInPost (changeLike s inp) inp).posts =
      s.posts.map (fun p =>
        if postKey inp.postId p = true then
          if inp.like = true then { p with likes := p.likes + 1, dislikes := p.dislikes - 1 }
          else { p with likes := p.likes - 1, dislikes := p.dislikes + 1 }
        else p) from rfl] at hp
  rw [show (overwriteLikeInPost (changeLike s inp) inp).reactions =
      List.map (fun x => if reactionKey inp.userId inp.postId x then { x with like := inp.like }
        else x) s.reactions from rfl,
    hsplit, map_change_key_split _ _ _ _ _ _ h1 h2 hr]
  obtain ⟨q, hq, rfl⟩ := List.mem_map.mp hp
  obtain ⟨hql, hqd⟩ := hinv q hq
  rw [hsplit, countReactions_middle] at hql
  rw [hsplit, countReactions_middle] at hqd
  have hct : countReactions (l1 ++ ({ r with like := inp.like } : ReactionRow) :: l2) q.id true =
      countReactions (l1 ++ l2) q.id true +
        (if r.post_id = q.id ∧ inp.like = true then 1 else 0) :=
    countReactions_middle _ _ _ _ _
  have hcf : countReactions (l1 ++ ({ r with like := inp.like } : ReactionRow) :: l2) q.id false =
      countReactions (l1 ++ l2) q.id false +
        (if r.post_id = q.id ∧ inp.like = false then 1 else 0) :=
    countReactions_middle _ _ _ _ _
  by_cases hid : q.id = inp.postId
  · have hkey : postKey inp.postId q = true := by simp [postKey, hid]
    by_cases hl : inp.like = true
    · have hrl : r.like = false := by
        rw [hl] at hlike
        rwa [Ne, Bool.not_eq_true] at hlike
      rw [if_neg (by simp [hrl])] at hql
      rw [if_pos ⟨hrp.trans hid.symm, hrl⟩] at hqd
      rw [if_pos hkey, if_pos hl]
      refine ⟨?_, ?_⟩
      · show q.likes + 1 = (countReactions
          (l1 ++ ({ r with like := inp.like } : ReactionRow) :: l2) q.id true : Int)
        rw [hct, if_pos ⟨hrp.trans hid.symm, hl⟩]
        omega
      · show q.dislikes - 1 = (countReactions
          (l1 ++ ({ r with like := inp.like } : ReactionRow) :: l2) q.id false : Int)
        rw [hcf, if_neg (by simp [hl])]
        omega
    · have hlf : inp.like = false := by
        rwa [Bool.not_eq_true] at hl
      have hrl : r.like = true := by
        rw [hlf] at hlike
        rwa [Ne, Bool.not_eq_false] at hlike
      rw [if_pos ⟨hrp.trans hid.symm, hrl⟩] at hql
      rw [if_neg (by simp [hrl])] at hqd
      rw [if_pos hkey, if_neg hl]
      refine ⟨?_, ?_⟩
      · show q.likes - 1 = (countReactions
          (l1 ++ ({ r with like := inp.like } : ReactionRow) :: l2) q.id true : Int)
        rw [hct, if_neg (by simp [hlf])]
        omega
      · show q.dislikes + 1 = (countReactions
          (l1 ++ ({ r with like := inp.like } : ReactionRow) :: l2) q.id false : Int)
        rw [hcf, if_pos ⟨hrp.trans hid.symm, hlf⟩]
        omega
  · have hnkey : ¬(postKey inp.postId q = true) := by
      simp [postKey, hid]
    rw [if_neg (fun hcon => hid ((hrp ▸ hcon.1 : inp.postId = q.id)).symm)] at hql
    rw [if_neg (fun hcon => hid ((hrp ▸ hcon.1 : inp.postId = q.id)).symm)] at hqd
    rw [if_neg hnkey]
    refine ⟨?_, ?_⟩
    · show q.likes = (countReactions
        (l1 ++ ({ r with like := inp.like } : ReactionRow) :: l2) q.id true : Int)
      rw [hct, if_neg (fun hcon => hid ((hrp ▸ hcon.1 : inp.postId = q.id)).symm)]
      omega
    · show q.dislikes = (countReactions
        (l1 ++ ({ r with like := inp.like } : ReactionRow) :: l2) q.id false : Int)
      rw [hcf, if_neg (fun hcon => hid ((hrp ▸ hcon.1 : inp.postId = q.id)).symm)]
      omega

theorem unique_insert_step (s : DBState) (inp : InputLikeDB)
    (hnone : getLike s inp = none) (hu : ReactionsUnique s) :
    ReactionsUnique (addLikeInPost (createLike s inp) inp) := by
  show List.Pairwise _ ((⟨inp.userId, inp.postId, inp.like⟩ : ReactionRow) :: s.reactions)
  rw [List.pairwise_cons]
  refine ⟨?_, hu⟩
  intro x hx hcon
  exact absurd ((reactionKey_eq_true _ _ _).mpr ⟨hcon.1.symm, hcon.2.symm⟩)
    (List.find?_eq_none.mp hnone x hx)

theorem unique_delete_step (s : DBState) (inp : InputLikeDB)
    (hu : ReactionsUnique s) :
    ReactionsUnique (decreaseLikeInPost (deleteLike s inp) inp) :=
  List.Pairwise.sublist (List.filter_sublist s.reactions) hu

theorem unique_change_step (s : DBState) (inp : InputLikeDB)
    (hu : ReactionsUnique s) :
    ReactionsUnique (overwriteLikeInPost (changeLike s inp) inp) := by
  show List.Pairwise _ (s.reactions.map
    (fun x => if reactionKey inp.userId inp.postId x then { x with like := inp.like } else x))
  refine List.Pairwise.map _ ?_ hu
  intro a b hab hcon
  apply hab
  have hua : ((if reactionKey inp.userId inp.postId a then { a with like := inp.like }
      else a) : ReactionRow).user_id = a.user_id := by
    by_cases h : reactionKey inp.userId inp.postId a <;> simp [h]
  have hpa : ((if reactionKey inp.userId inp.postId a then { a with like := inp.like }
      else a) : ReactionRow).post_id = a.post_id := by
    by_cases h : reactionKey inp.userId inp.postId a <;> simp [h]
  have hub : ((if reactionKey inp.userId inp.postId b then { b with like := inp.like }
      else b) : ReactionRow).user_id = b.user_id := by
    by_cases h : reactionKey inp.userId inp.postId b <;> simp [h]
  have hpb : ((if reactionKey inp.userId inp.postId b then { b with like := inp.like }
      else b) : ReactionRow).post_id = b.post_id := by
    by_cases h : reactionKey inp.userId inp.postId b <;> simp [h]
  exact ⟨hua ▸ hub ▸ hcon.1, hpa ▸ hpb ▸ hcon.2⟩

theorem putLike_step_preserved (gp : String → Option Payload) (inp : PutLikeInput)
    (s : DBState) (hinv : CountersInvariant s) (hu : ReactionsUnique s) :
    CountersInvariant (putLike gp inp s).2 ∧ ReactionsUnique (putLike gp inp s).2 := by
  unfold putLike
  cases hgp : gp inp.token with
  | none => exact ⟨hinv, hu⟩
  | some payload =>
    simp only
    cases hpost : getPostByIdDBForm s inp.postId with
    | none => exact ⟨hinv, hu⟩
    | some postDB =>
      simp only
      cases huser : findUserById s payload.id with
      | none => exact ⟨hinv, hu⟩
      | some userDB =>
        simp only
        by_cases hcr : postDB.creator_id = payload.id
        · rw [if_pos hcr]
          exact ⟨hinv, hu⟩
        · rw [if_neg hcr]
          cases hlk : getLike s ⟨payload.id, inp.postId, inp.like⟩ with
          | none =>
            exact ⟨inv_insert_step s _ hinv, unique_insert_step s _ hlk hu⟩
          | some likeDB =>
            simp only
            by_cases hsame : likeDB.like = inp.like
            · rw [if_pos hsame]
              exact ⟨inv_delete_step s _ likeDB hu hlk hsame hinv,
                unique_delete_step s _ hu⟩
            · rw [if_neg hsame]
              exact ⟨inv_change_step s _ likeDB hu hlk hsame hinv,
                unique_change_step s _ hu⟩

theorem find?_postKey_map (pid : String) (h : PostRow → PostRow)
    (hpres : ∀ p, (h p).id = p.id) (l : List PostRow) :
    (l.map h).find? (postKey pid) = (l.find? (postKey pid)).map h := by
  rw [List.find?_map]
  have hc : (postKey pid ∘ h) = postKey pid := by
    funext p
    simp [postKey, Function.comp, hpres]
  rw [hc]

theorem getPostByIdDBForm_addLike (s : DBState) (inp : InputLikeDB) (pid : String) :
    getPostByIdDBForm (addLikeInPost s inp) pid =
      (getPostByIdDBForm s pid).map (fun p =>
        if postKey inp.postId p then
          if inp.like then { p with likes := p.likes + 1 }
          else { p with dislikes := p.dislikes + 1 }
        else p) := by
  show ((s.posts.map _).find? (postKey pid)) = _
  rw [find?_postKey_map]
  · rfl
  · intro p
    by_cases hk : postKey inp.postId p <;> by_cases hl : inp.like <;> simp [hk, hl]

theorem getPostByIdDBForm_decreaseLike (s : DBState) (inp : InputLikeDB) (pid : String) :
    getPostByIdDBForm (decreaseLikeInPost s inp) pid =
      (getPostByIdDBForm s pid).map (fun p =>
        if postKey inp.postId p then
          if inp.like then { p with likes := p.likes - 1 }
          else { p with dislikes := p.dislikes - 1 }
        else p) := by
  show ((s.posts.map _).find? (postKey pid)) = _
  rw [find?_postKey_map]
  · rfl
  · intro p
    by_cases hk : postKey inp.postId p <;> by_cases hl : inp.like <;> simp [hk, hl]

theorem getPostByIdDBForm_overwriteLike (s : DBState) (inp : InputLikeDB) (pid : String) :
    getPostByIdDBForm (overwriteLikeInPost s inp) pid =
      (getPostByIdDBForm s pid).map (fun p =>
        if postKey inp.postId p then
          if inp.like then { p with likes := p.likes + 1, dislikes := p.dislikes - 1 }
          else { p with likes := p.likes - 1, dislikes := p.dislikes + 1 }
        else p) := by
  show ((s.posts.map _).find? (postKey pid)) = _
  rw [find?_postKey_map]
  · rfl
  · intro p
    by_cases hk : postKey inp.postId p <;> by_cases hl : inp.like <;> simp [hk, hl]

theorem getLike_after_insert (s : DBState) (inp : InputLikeDB) (b : Bool) :
    getLike (addLikeInPost (createLike s inp) inp) ⟨inp.userId, inp.postId, b⟩ =
      some ⟨inp.userId, inp.postId, inp.like⟩ := by
  show List.find? _ ((⟨inp.userId, inp.postId, inp.like⟩ : ReactionRow) :: s.reactions) = _
  rw [List.find?_cons_of_pos]
  exact (reactionKey_eq_true _ _ _).mpr ⟨rfl, rfl⟩

theorem getLike_after_delete (s : DBState) (inp : InputLikeDB) (b : Bool) :
    getLike (decreaseLikeInPost (deleteLike s inp) inp) ⟨inp.userId, inp.postId, b⟩ = none := by
  show List.find? _ (s.reactions.filter _) = none
  rw [List.find?_eq_none]
  intro x hx
  have hmem := List.of_mem_filter hx
  simpa using hmem

theorem getLike_after_change (s : DBState) (inp : InputLikeDB) (b : Bool) (r : ReactionRow)
    (hfind : getLike s inp = some r) :
    getLike (overwriteLikeInPost (changeLike s inp) inp) ⟨inp.userId, inp.postId, b⟩ =
      some { r with like := inp.like } := by
  have hr : reactionKey inp.userId inp.postId r = true := List.find?_some hfind
  show List.find? _ (s.reactions.map _) = _
  rw [List.find?_map]
  have hc : (reactionKey (⟨inp.userId, inp.postId, b⟩ : InputLikeDB).userId
      (⟨inp.userId, inp.postId, b⟩ : InputLikeDB).postId ∘
      (fun x => if reactionKey inp.userId inp.postId x then { x with like := inp.like }
        else x)) = reactionKey inp.userId inp.postId := by
    funext x
    simp only [Function.comp]
    by_cases h : reactionKey inp.userId inp.postId x = true
    · rw [if_pos h]
      simp [reactionKey]
    · rw [if_neg h]
  rw [hc, show s.reactions.find? (reactionKey inp.userId inp.postId) = some r from hfind]
  show some (if reactionKey inp.userId inp.postId r = true then { r with like := inp.like }
    else r) = some ({ r with like := inp.like } : ReactionRow)
  rw [if_pos hr]

/-- Claim C3: putLike checks its preconditions in order — invalid token first
(bad-request "Token inválido"), then missing post (not-found), then missing
acting user (not-found), then acting user equal to the post creator
(bad-request); in every failing case the returned state is the input state,
so no reaction row or counter changes. -/
theorem putLike_precondition_order (gp : String → Option Payload) (inp : PutLikeInput)
    (s : DBState) :
    (gp inp.token = none →
      putLike gp inp s = (.error (.badRequest "Token inválido"), s)) ∧
    (∀ payload, gp inp.token = some payload →
      getPostByIdDBForm s inp.postId = none →
      putLike gp inp s = (.error (.notFound "Post não existe."), s)) ∧
    (∀ payload postDB, gp inp.token = some payload →
      getPostByIdDBForm s inp.postId = some postDB →
      findUserById s payload.id = none →
      putLike gp inp s = (.error (.notFound "Usuário não existe."), s)) ∧
    (∀ payload postDB userDB, gp inp.token = some payload →
      getPostByIdDBForm s inp.postId = some postDB →
      findUserById s payload.id = some userDB →
      postDB.creator_id = payload.id →
      putLike gp inp s =
        (.error (.badRequest "O usuário não pode reagir ao próprio post."), s)) := by
  refine ⟨?_, ?_, ?_, ?_⟩
  · intro h
    simp [putLike, h]
  · intro payload hgp hpost
    simp [putLike, hgp, hpost]
  · intro payload postDB hgp hpost huser
    simp [putLike, hgp, hpost, huser]
  · intro payload postDB userDB hgp hpost huser hcr
    simp [putLike, hgp, hpost, huser, hcr]

/-- Witness for C3: with an unknown token, putLike on the sample state fails
with the invalid-token error and leaves the state unchanged. -/
theorem putLike_precondition_order_witness :
    gp0 "bad-token" = none ∧
    putLike gp0 ⟨"p001", true, "bad-token"⟩ s0 =
      (.error (.badRequest "Token inválido"), s0) :=
  ⟨by decide, (putLike_precondition_order gp0 ⟨"p001", true, "bad-token"⟩ s0).1 (by decide)⟩

/-- Claim C4: every operation decodes the token first; when decoding fails the
operation returns the invalid-token error (the code signals it as
BadRequestError "Token inválido") and the returned store state is the input
state unchanged, for every store state — so the decision touches no store
data. -/
theorem token_checked_first (gp : String → Option Payload) (token : String)
    (htok : gp token = none) :
    (∀ rows query, getPosts gp rows ⟨token, query⟩ =
      .error (.badRequest "Token inválido")) ∧
    (∀ content genId now s, createPost gp genId now ⟨content, token⟩ s =
      (.error (.badRequest "Token inválido"), s)) ∧
    (∀ idToEdit newContent now s, editPost gp now ⟨idToEdit, newContent, token⟩ s =
      (.error (.badRequest "Token inválido"), s)) ∧
    (∀ postId b s, putLike gp ⟨postId, b, token⟩ s =
      (.error (.badRequest "Token inválido"), s)) ∧
    (∀ idToDelete s, deletePost gp ⟨idToDelete, token⟩ s =
      (.error (.badRequest "Token inválido"), s)) := by
  refine ⟨?_, ?_, ?_, ?_, ?_⟩
  · intro rows query
    simp [getPosts, htok]
  · intro content genId now s
    simp [createPost, htok]
  · intro idToEdit newContent now s
    simp [editPost, htok]
  · intro postId b s
    simp [putLike, htok]
  · intro idToDelete s
    simp [deletePost, htok]

/-- Witness for C4: the unknown token "nope" makes putLike fail with the
invalid-token error on the sample state, leaving it unchanged. -/
theorem token_checked_first_witness :
    gp0 "nope" = none ∧
    putLike gp0 ⟨"p001", true, "nope"⟩ s0 = (.error (.badRequest "Token inválido"), s0) :=
  ⟨by decide, (token_checked_first gp0 "nope" (by decide)).2.2.2.1 "p001" true s0⟩

/-- Claim C1: with a valid token, an existing post, an existing acting user
distinct from the post creator, putLike follows the three-state transition
table: no existing reaction inserts the row and increments the requested
counter ("enviado"); an equal existing reaction deletes the row and
decrements that counter ("removido"); a differing existing reaction
overwrites the row, decrements the old counter and increments the new one
("alterado"). -/
theorem putLike_transition_table (gp : String → Option Payload) (inp : PutLikeInput)
    (s : DBState) (payload : Payload) (postDB : PostRow)
    (htok : gp inp.token = some payload)
    (hpost : getPostByIdDBForm s inp.postId = some postDB)
    (huser : (findUserById s payload.id).isSome = true)
    (hself : postDB.creator_id ≠ payload.id) :
    (getLike s ⟨payload.id, inp.postId, inp.like⟩ = none →
      (putLike gp inp s).1 = .ok ⟨"Like/Dislike enviado com sucesso."⟩ ∧
      getLike (putLike gp inp s).2 ⟨payload.id, inp.postId, inp.like⟩ =
        some ⟨payload.id, inp.postId, inp.like⟩ ∧
      getPostByIdDBForm (putLike gp inp s).2 inp.postId =
        some (if inp.like then { postDB with likes := postDB.likes + 1 }
          else { postDB with dislikes := postDB.dislikes + 1 })) ∧
    (∀ r, getLike s ⟨payload.id, inp.postId, inp.like⟩ = some r → r.like = inp.like →
      (putLike gp inp s).1 = .ok ⟨"Like/Dislike removido com sucesso."⟩ ∧
      getLike (putLike gp inp s).2 ⟨payload.id, inp.postId, inp.like⟩ = none ∧
      getPostByIdDBForm (putLike gp inp s).2 inp.postId =
        some (if inp.like then { postDB with likes := postDB.likes - 1 }
          else { postDB with dislikes := postDB.dislikes - 1 })) ∧
    (∀ r, getLike s ⟨payload.id, inp.postId, inp.like⟩ = some r → r.like ≠ inp.like →
      (putLike gp inp s).1 = .ok ⟨"Like/Dislike alterado com sucesso."⟩ ∧
      getLike (putLike gp inp s).2 ⟨payload.id, inp.postId, inp.like⟩ =
        some ⟨payload.id, inp.postId, inp.like⟩ ∧
      getPostByIdDBForm (putLike gp inp s).2 inp.postId =
        some (if inp.like then
            { postDB with likes := postDB.likes + 1, dislikes := postDB.dislikes - 1 }
          else { postDB with likes := postDB.likes - 1, dislikes := postDB.dislikes + 1 })) := by
  obtain ⟨userDB, huser2⟩ := Option.isSome_iff_exists.mp huser
  have hkey : postKey inp.postId postDB = true := List.find?_some hpost
  refine ⟨?_, ?_, ?_⟩
  · intro hnone
    have hres : putLike gp inp s =
        (.ok ⟨"Like/Dislike enviado com sucesso."⟩,
          addLikeInPost (createLike s ⟨payload.id, inp.postId, inp.like⟩)
            ⟨payload.id, inp.postId, inp.like⟩) := by
      simp [putLike, htok, hpost, huser2, hnone, hself]
    rw [hres]
    refine ⟨rfl, getLike_after_insert s _ inp.like, ?_⟩
    rw [getPostByIdDBForm_addLike,
      show getPostByIdDBForm (createLike s ⟨payload.id, inp.postId, inp.like⟩) inp.postId =
        some postDB from hpost]
    simp [hkey]
  · intro r hfound hsame
    have hres : putLike gp inp s =
        (.ok ⟨"Like/Dislike removido com sucesso."⟩,
          decreaseLikeInPost (deleteLike s ⟨payload.id, inp.postId, inp.like⟩)
            ⟨payload.id, inp.postId, inp.like⟩) := by
      simp [putLike, htok, hpost, huser2, hfound, hsame, hself]
    rw [hres]
    refine ⟨rfl, getLike_after_delete s _ inp.like, ?_⟩
    rw [getPostByIdDBForm_decreaseLike,
      show getPostByIdDBForm (deleteLike s ⟨payload.id, inp.postId, inp.like⟩) inp.postId =
        some postDB from hpost]
    simp [hkey]
  · intro r hfound hdiff
    have hres : putLike gp inp s =
        (.ok ⟨"Like/Dislike alterado com sucesso."⟩,
          overwriteLikeInPost (changeLike s ⟨payload.id, inp.postId, inp.like⟩)
            ⟨payload.id, inp.postId, inp.like⟩) := by
      simp [putLike, htok, hpost, huser2, hfound, hdiff, hself]
    rw [hres]
    have hrk := (reactionKey_eq_true _ _ _).mp (List.find?_some hfound)
    have hrow : ({ r with like := inp.like } : ReactionRow) =
        ⟨payload.id, inp.postId, inp.like⟩ := by
      cases r
      simp only [ReactionRow.mk.injEq]
      exact ⟨hrk.1, hrk.2, trivial⟩
    refine ⟨rfl, ?_, ?_⟩
    · rw [getLike_after_change s _ inp.like r hfound, hrow]
    · rw [getPostByIdDBForm_overwriteLike,
        show getPostByIdDBForm (changeLike s ⟨payload.id, inp.postId, inp.like⟩) inp.postId =
          some postDB from hpost]
      simp [hkey]

/-- Witness for C1: u002 likes u001's sample post p001 from the NoReaction
state; the call sends the reaction, the row appears and the like counter goes
from 0 to 1. -/
theorem putLike_transition_table_witness :
    gp0 "token-u002" = some ⟨"u002", "NORMAL"⟩ ∧
    getPostByIdDBForm s0 "p001" = some p001 ∧
    (findUserById s0 "u002").isSome = true ∧
    p001.creator_id ≠ "u002" ∧
    getLike s0 ⟨"u002", "p001", true⟩ = none ∧
    ((putLike gp0 ⟨"p001", true, "token-u002"⟩ s0).1 =
      .ok ⟨"Like/Dislike enviado com sucesso."⟩ ∧
    getLike (putLike gp0 ⟨"p001", true, "token-u002"⟩ s0).2 ⟨"u002", "p001", true⟩ =
      some ⟨"u002", "p001", true⟩ ∧
    getPostByIdDBForm (putLike gp0 ⟨"p001", true, "token-u002"⟩ s0).2 "p001" =
      some (if true then { p001 with likes := p001.likes + 1 }
        else { p001 with dislikes := p001.dislikes + 1 })) :=
  ⟨by decide, by decide, by decide, by decide, by decide,
    (putLike_transition_table gp0 ⟨"p001", true, "token-u002"⟩ s0 ⟨"u002", "NORMAL"⟩ p001
      (by decide) (by decide) (by decide) (by decide)).1 (by decide)⟩

/-- Claim C5: for a non-creator user with no prior reaction, calling
putLike(u, p, true) twice in a row leaves the (u, p) pair with no reaction
row after the second call; the second call succeeds with the "removido"
message instead of raising an error. -/
theorem putLike_like_twice_toggle_off (gp : String → Option Payload) (inp : PutLikeInput)
    (s : DBState) (payload : Payload) (postDB : PostRow)
    (htok : gp inp.token = some payload)
    (hlike : inp.like = true)
    (hpost : getPostByIdDBForm s inp.postId = some postDB)
    (huser : (findUserById s payload.id).isSome = true)
    (hself : postDB.creator_id ≠ payload.id)
    (hnone : getLike s ⟨payload.id, inp.postId, true⟩ = none) :
    getLike (putLike gp inp (putLike gp inp s).2).2 ⟨payload.id, inp.postId, true⟩ = none ∧
    (putLike gp inp (putLike gp inp s).2).1 =
      .ok ⟨"Like/Dislike removido com sucesso."⟩ := by
  obtain ⟨pid, lk, tok⟩ := inp
  have hlk : lk = true := hlike
  subst hlk
  obtain ⟨userDB, huser2⟩ := Option.isSome_iff_exists.mp huser
  have htok2 : gp tok = some payload := htok
  have hpost2 : getPostByIdDBForm s pid = some postDB := hpost
  have hnone2 : getLike s ⟨payload.id, pid, true⟩ = none := hnone
  have hkey : postKey pid postDB = true := List.find?_some hpost2
  have hres1 : putLike gp ⟨pid, true, tok⟩ s =
      (.ok ⟨"Like/Dislike enviado com sucesso."⟩,
        addLikeInPost (createLike s ⟨payload.id, pid, true⟩) ⟨payload.id, pid, true⟩) := by
    simp [putLike, htok2, hpost2, huser2, hnone2, hself]
  have hpostAfter : getPostByIdDBForm
      (addLikeInPost (createLike s ⟨payload.id, pid, true⟩) ⟨payload.id, pid, true⟩) pid =
      some { postDB with likes := postDB.likes + 1 } := by
    rw [getPostByIdDBForm_addLike,
      show getPostByIdDBForm (createLike s ⟨payload.id, pid, true⟩) pid =
        some postDB from hpost2]
    simp [hkey]
  have huser3 : findUserById
      (addLikeInPost (createLike s ⟨payload.id, pid, true⟩) ⟨payload.id, pid, true⟩)
      payload.id = some userDB := huser2
  have hfound2 : getLike
      (addLikeInPost (createLike s ⟨payload.id, pid, true⟩) ⟨payload.id, pid, true⟩)
      ⟨payload.id, pid, true⟩ = some ⟨payload.id, pid, true⟩ :=
    getLike_after_insert s ⟨payload.id, pid, true⟩ true
  have hself2 : ({ postDB with likes := postDB.likes + 1 } : PostRow).creator_id ≠
      payload.id := hself
  have hres2 : putLike gp ⟨pid, true, tok⟩
      (addLikeInPost (createLike s ⟨payload.id, pid, true⟩) ⟨payload.id, pid, true⟩) =
      (.ok ⟨"Like/Dislike removido com sucesso."⟩,
        decreaseLikeInPost
          (deleteLike
            (addLikeInPost (createLike s ⟨payload.id, pid, true⟩) ⟨payload.id, pid, true⟩)
            ⟨payload.id, pid, true⟩)
          ⟨payload.id, pid, true⟩) := by
    simp [putLike, htok2, hpostAfter, huser3, hfound2, hself2]
  rw [hres1]
  show getLike (putLike gp ⟨pid, true, tok⟩
      (addLikeInPost (createLike s ⟨payload.id, pid, true⟩) ⟨payload.id, pid, true⟩)).2
      ⟨payload.id, pid, true⟩ = none ∧
    (putLike gp ⟨pid, true, tok⟩
      (addLikeInPost (createLike s ⟨payload.id, pid, true⟩) ⟨payload.id, pid, true⟩)).1 =
      .ok ⟨"Like/Dislike removido com sucesso."⟩
  rw [hres2]
  exact ⟨getLike_after_delete _ ⟨payload.id, pid, true⟩ true, rfl⟩

/-- Witness for C5: u002 likes p001 twice; after the second call the
reaction row is gone and the second call reported a successful removal. -/
theorem putLike_like_twice_toggle_off_witness :
    gp0 "token-u002" = some ⟨"u002", "NORMAL"⟩ ∧
    getPostByIdDBForm s0 "p001" = some p001 ∧
    (findUserById s0 "u002").isSome = true ∧
    p001.creator_id ≠ "u002" ∧
    getLike s0 ⟨"u002", "p001", true⟩ = none ∧
    (getLike (putLike gp0 ⟨"p001", true, "token-u002"⟩
        (putLike gp0 ⟨"p001", true, "token-u002"⟩ s0).2).2 ⟨"u002", "p001", true⟩ = none ∧
      (putLike gp0 ⟨"p001", true, "token-u002"⟩
        (putLike gp0 ⟨"p001", true, "token-u002"⟩ s0).2).1 =
        .ok ⟨"Like/Dislike removido com sucesso."⟩) :=
  ⟨by decide, by decide, by decide, by decide, by decide,
    putLike_like_twice_toggle_off gp0 ⟨"p001", true, "token-u002"⟩ s0 ⟨"u002", "NORMAL"⟩ p001
      (by decide) rfl (by decide) (by decide) (by decide) (by decide)⟩

/-- Claim C6: with a valid token and an existing target post, editPost and
deletePost by a requester whose id differs from the post creator fail with
the ownership bad-request error and return the store state unchanged, so the
post and every other row keep all their fields. -/
theorem edit_delete_ownership (gp : String → Option Payload) (s : DBState) :
    (∀ now idToEdit newContent token payload postToEdit,
      gp token = some payload →
      getPostByIdOutputForm s idToEdit = some postToEdit →
      payload.id ≠ postToEdit.creator_id →
      editPost gp now ⟨idToEdit, newContent, token⟩ s =
        (.error (.badRequest
          "O post deve pertencer ao usuário logado para que possa editá-lo"), s)) ∧
    (∀ idToDelete token payload postExists,
      gp token = some payload →
      getPostByIdDBForm s idToDelete = some postExists →
      payload.id ≠ postExists.creator_id →
      deletePost gp ⟨idToDelete, token⟩ s =
        (.error (.badRequest
          "O post deve pertencer ao usuário logado para que possa deletá-lo"), s)) := by
  constructor
  · intro now idToEdit newContent token payload postToEdit htok hpost hne
    simp [editPost, htok, hpost, hne]
  · intro idToDelete token payload postExists htok hpost hne
    simp [deletePost, htok, hpost, hne]

/-- Witness for C6: u002 tries to edit u001's post p001 and gets the
ownership error with the state unchanged. -/
theorem edit_delete_ownership_witness :
    gp0 "token-u002" = some ⟨"u002", "NORMAL"⟩ ∧
    getPostByIdOutputForm s0 "p001" =
      some ⟨"p001", "u001", "lindo dia.", 0, 0, "2023-01-02", "2023-01-02", "Fulano"⟩ ∧
    ("u002" : String) ≠ "u001" ∧
    editPost gp0 "2023-02-01" ⟨"p001", "novo", "token-u002"⟩ s0 =
      (.error (.badRequest
        "O post deve pertencer ao usuário logado para que possa editá-lo"), s0) :=
  ⟨by decide, by decide, by decide,
    (edit_delete_ownership gp0 s0).1 "2023-02-01" "p001" "novo" "token-u002"
      ⟨"u002", "NORMAL"⟩
      ⟨"p001", "u001", "lindo dia.", 0, 0, "2023-01-02", "2023-01-02", "Fulano"⟩
      (by decide) (by decide) (by decide)⟩

/-- Claim C7: with a valid token, createPost rejects a colliding generated id
with the bad-request error without inserting anything, and otherwise persists
a post carrying the generated id, the payload id as creator, the given
content and zero counters, returning the success confirmation; users and
reactions are untouched and existing posts are kept. -/
theorem createPost_spec (gp : String → Option Payload) (genId now : String)
    (inp : CreatePostInput) (s : DBState) (payload : Payload)
    (htok : gp inp.token = some payload) :
    (∀ q, getPostByIdDBForm s genId = some q →
      createPost gp genId now inp s = (.error (.badRequest "Post já existe."), s)) ∧
    (getPostByIdDBForm s genId = none →
      (createPost gp genId now inp s).1 = .ok ⟨"Post criado com sucesso."⟩ ∧
      getPostByIdDBForm (createPost gp genId now inp s).2 genId =
        some ⟨genId, payload.id, inp.content, 0, 0, now, now⟩ ∧
      (createPost gp genId now inp s).2.users = s.users ∧
      (createPost gp genId now inp s).2.reactions = s.reactions ∧
      ∀ p ∈ s.posts, p ∈ (createPost gp genId now inp s).2.posts) := by
  constructor
  · intro q hq
    simp [createPost, htok, hq]
  · intro hnone
    have hres : createPost gp genId now inp s =
        (.ok ⟨"Post criado com sucesso."⟩, insertPost s genId payload.id inp.content now) := by
      simp [createPost, htok, hnone]
    rw [hres]
    refine ⟨rfl, ?_, rfl, rfl, ?_⟩
    · show (s.posts ++
        [(⟨genId, payload.id, inp.content, 0, 0, now, now⟩ : PostRow)]).find? (postKey genId) =
        some ⟨genId, payload.id, inp.content, 0, 0, now, now⟩
      rw [List.find?_append, show List.find? (postKey genId) s.posts = none from hnone,
        Option.none_or, List.find?_cons_of_pos _ (by simp [postKey])]
    · intro p hp
      show p ∈ s.posts ++ [(⟨genId, payload.id, inp.content, 0, 0, now, now⟩ : PostRow)]
      exact List.mem_append_left _ hp

/-- Witness for C7: u001 creates a post under fresh id p999; it is persisted
with creator u001, the given content and zero counters. -/
theorem createPost_spec_witness :
    gp0 "token-u001" = some ⟨"u001", "NORMAL"⟩ ∧
    getPostByIdDBForm s0 "p999" = none ∧
    (createPost gp0 "p999" "2023-03-01" ⟨"hoje", "token-u001"⟩ s0).1 =
      .ok ⟨"Post criado com sucesso."⟩ ∧
    getPostByIdDBForm (createPost gp0 "p999" "2023-03-01" ⟨"hoje", "token-u001"⟩ s0).2
      "p999" = some ⟨"p999", "u001", "hoje", 0, 0, "2023-03-01", "2023-03-01"⟩ :=
  ⟨by decide, by decide,
    ((createPost_spec gp0 "p999" "2023-03-01" ⟨"hoje", "token-u001"⟩ s0 ⟨"u001", "NORMAL"⟩
      (by decide)).2 (by decide)).1,
    ((createPost_spec gp0 "p999" "2023-03-01" ⟨"hoje", "token-u001"⟩ s0 ⟨"u001", "NORMAL"⟩
      (by decide)).2 (by decide)).2.1⟩

/-- Claim C10: the business layer does not validate content: with a valid
token and a fresh generated id, createPost succeeds for every content string,
the empty string included, and the persisted row carries the content
verbatim. -/
theorem createPost_no_content_validation (gp : String → Option Payload)
    (genId now token : String) (s : DBState) (payload : Payload)
    (htok : gp token = some payload)
    (hfresh : getPostByIdDBForm s genId = none) :
    ∀ content : String,
      (createPost gp genId now ⟨content, token⟩ s).1 = .ok ⟨"Post criado com sucesso."⟩ ∧
      getPostByIdDBForm (createPost gp genId now ⟨content, token⟩ s).2 genId =
        some ⟨genId, payload.id, content, 0, 0, now, now⟩ := by
  intro content
  have hres : createPost gp genId now ⟨content, token⟩ s =
      (.ok ⟨"Post criado com sucesso."⟩, insertPost s genId payload.id content now) := by
    simp [createPost, htok, hfresh]
  rw [hres]
  refine ⟨rfl, ?_⟩
  show (s.posts ++
      [(⟨genId, payload.id, content, 0, 0, now, now⟩ : PostRow)]).find? (postKey genId) =
    some ⟨genId, payload.id, content, 0, 0, now, now⟩
  rw [List.find?_append, show List.find? (postKey genId) s.posts = none from hfresh,
    Option.none_or, List.find?_cons_of_pos _ (by simp [postKey])]

/-- Witness for C10: u001 creates a post with empty content; it succeeds and
the row stores the empty string. -/
theorem createPost_no_content_validation_witness :
    gp0 "token-u001" = some ⟨"u001", "NORMAL"⟩ ∧
    getPostByIdDBForm s0 "p777" = none ∧
    ((createPost gp0 "p777" "2023-03-02" ⟨"", "token-u001"⟩ s0).1 =
      .ok ⟨"Post criado com sucesso."⟩ ∧
      getPostByIdDBForm (createPost gp0 "p777" "2023-03-02" ⟨"", "token-u001"⟩ s0).2
        "p777" = some ⟨"p777", "u001", "", 0, 0, "2023-03-02", "2023-03-02"⟩) :=
  ⟨by decide, by decide,
    createPost_no_content_validation gp0 "p777" "2023-03-02" "token-u001" s0
      ⟨"u001", "NORMAL"⟩ (by decide) (by decide) ""⟩

/-- Claim C9: with a valid token, getPosts returns exactly one output record
per fetched row, in the same order, with id, content, likes, dislikes,
createdAt and updatedAt copied from the row and the creator sub-record built
from the row creator id and joined name; no row is dropped or
duplicated. -/
theorem getPosts_maps_rows (gp : String → Option Payload) (token : String)
    (query : Option String) (rows : List PostOutputDB) (payload : Payload)
    (htok : gp token = some payload) :
    ∃ out, getPosts gp rows ⟨token, query⟩ = .ok out ∧
      out.length = rows.length ∧
      ∀ i (hi : i < rows.length) (ho : i < out.length),
        out.get ⟨i, ho⟩ =
          { id := (rows.get ⟨i, hi⟩).id
            content := (rows.get ⟨i, hi⟩).content
            likes := (rows.get ⟨i, hi⟩).likes
            dislikes := (rows.get ⟨i, hi⟩).dislikes
            createdAt := (rows.get ⟨i, hi⟩).created_at
            updatedAt := (rows.get ⟨i, hi⟩).updated_at
            creator := ⟨(rows.get ⟨i, hi⟩).creator_id, (rows.get ⟨i, hi⟩).name⟩ } := by
  have hres : getPosts gp rows ⟨token, query⟩ = .ok ((rows.map (fun post =>
      Post.mk post.id post.content post.likes post.dislikes post.created_at post.updated_at
        ⟨post.creator_id, post.name⟩)).map (fun post =>
      { id := post.getId
        content := post.getContent
        likes := post.getLikes
        dislikes := post.getDislikes
        createdAt := post.getCreatedAt
        updatedAt := post.getUpdatedAt
        creator := post.getCreator })) := by
    simp [getPosts, htok]
  refine ⟨_, hres, by simp, ?_⟩
  intro i hi ho
  rw [List.get_map, List.get_map]
  rfl

/-- Witness for C9: with one fetched row, getPosts returns the single mapped
record in place. -/
theorem getPosts_maps_rows_witness :
    gp0 "token-u001" = some ⟨"u001", "NORMAL"⟩ ∧
    ∃ out, getPosts gp0
        [⟨"p001", "u001", "lindo dia.", 0, 0, "2023-01-02", "2023-01-02", "Fulano"⟩]
        ⟨"token-u001", none⟩ = .ok out ∧
      out.length = ([(⟨"p001", "u001", "lindo dia.", 0, 0, "2023-01-02", "2023-01-02",
        "Fulano"⟩ : PostOutputDB)]).length ∧
      ∀ i (hi : i < ([(⟨"p001", "u001", "lindo dia.", 0, 0, "2023-01-02", "2023-01-02",
          "Fulano"⟩ : PostOutputDB)]).length) (ho : i < out.length),
        out.get ⟨i, ho⟩ =
          { id := (([(⟨"p001", "u001", "lindo dia.", 0, 0, "2023-01-02", "2023-01-02",
              "Fulano"⟩ : PostOutputDB)]).get ⟨i, hi⟩).id
            content := (([(⟨"p001", "u001", "lindo dia.", 0, 0, "2023-01-02", "2023-01-02",
              "Fulano"⟩ : PostOutputDB)]).get ⟨i, hi⟩).content
            likes := (([(⟨"p001", "u001", "lindo dia.", 0, 0, "2023-01-02", "2023-01-02",
              "Fulano"⟩ : PostOutputDB)]).get ⟨i, hi⟩).likes
            dislikes := (([(⟨"p001", "u001", "lindo dia.", 0, 0, "2023-01-02", "2023-01-02",
              "Fulano"⟩ : PostOutputDB)]).get ⟨i, hi⟩).dislikes
            createdAt := (([(⟨"p001", "u001", "lindo dia.", 0, 0, "2023-01-02", "2023-01-02",
              "Fulano"⟩ : PostOutputDB)]).get ⟨i, hi⟩).created_at
            updatedAt := (([(⟨"p001", "u001", "lindo dia.", 0, 0, "2023-01-02", "2023-01-02",
              "Fulano"⟩ : PostOutputDB)]).get ⟨i, hi⟩).updated_at
            creator := ⟨(([(⟨"p001", "u001", "lindo dia.", 0, 0, "2023-01-02", "2023-01-02",
              "Fulano"⟩ : PostOutputDB)]).get ⟨i, hi⟩).creator_id,
              (([(⟨"p001", "u001", "lindo dia.", 0, 0, "2023-01-02", "2023-01-02",
              "Fulano"⟩ : PostOutputDB)]).get ⟨i, hi⟩).name⟩ } :=
  ⟨by decide, getPosts_maps_rows gp0 "token-u001" none
    [⟨"p001", "u001", "lindo dia.", 0, 0, "2023-01-02", "2023-01-02", "Fulano"⟩]
    ⟨"u001", "NORMAL"⟩ (by decide)⟩

/-- Claim C2: starting from a state satisfying the counter invariant and the
uniqueness of reactions per (user, post) pair declared by the data model,
after every finite sequence of putLike calls each post still carries likes
and dislikes counters equal to the number of reaction rows of each kind
referencing it. -/
theorem putLike_sequence_invariant (gp : String → Option Payload)
    (calls : List PutLikeInput) :
    ∀ s : DBState, CountersInvariant s → ReactionsUnique s →
      CountersInvariant (runPutLikes gp calls s) ∧
      ReactionsUnique (runPutLikes gp calls s) := by
  induction calls with
  | nil =>
    intro s hinv hu
    exact ⟨hinv, hu⟩
  | cons c cs ih =>
    intro s hinv hu
    have hstep := putLike_step_preserved gp c s hinv hu
    have hrun : runPutLikes gp (c :: cs) s = runPutLikes gp cs (putLike gp c s).2 := rfl
    rw [hrun]
    exact ih _ hstep.1 hstep.2

/-- Witness for C2: the sample state satisfies the invariant and keeps it
after u002 likes p001. -/
theorem putLike_sequence_invariant_witness :
    CountersInvariant s0 ∧ ReactionsUnique s0 ∧
    CountersInvariant (runPutLikes gp0 [⟨"p001", true, "token-u002"⟩] s0) := by
  have h1 : CountersInvariant s0 := by
    intro p hp
    have hp1 : p = p001 := by simpa [s0] using hp
    subst hp1
    exact ⟨by decide, by decide⟩
  have h2 : ReactionsUnique s0 := by
    show List.Pairwise _ ([] : List ReactionRow)
    exact List.Pairwise.nil
  exact ⟨h1, h2, (putLike_sequence_invariant gp0 [⟨"p001", true, "token-u002"⟩] s0 h1 h2).1⟩

/-- Claim C8: a putLike call applies the reaction-row change and the counter
change as one unit: on an error the returned state is the input state with
nothing applied, and on success the counters-match-rows invariant is
preserved, so the reaction rows and the counters never diverge. -/
theorem putLike_atomic (gp : String → Option Payload) (inp : PutLikeInput) (s : DBState) :
    (∀ e, (putLike gp inp s).1 = .error e → (putLike gp inp s).2 = s) ∧
    (CountersInvariant s → ReactionsUnique s →
      CountersInvariant (putLike gp inp s).2 ∧ ReactionsUnique (putLike gp inp s).2) := by
  constructor
  · intro e herr
    unfold putLike at herr ⊢
    cases hgp : gp inp.token with
    | none => simp [hgp]
    | some payload =>
      simp only [hgp] at herr ⊢
      cases hpost : getPostByIdDBForm s inp.postId with
      | none => simp [hpost]
      | some postDB =>
        simp only [hpost] at herr ⊢
        cases huser : findUserById s payload.id with
        | none => simp [huser]
        | some userDB =>
          simp only [huser] at herr ⊢
          by_cases hcr : postDB.creator_id = payload.id
          · simp [hcr]
          · simp only [hcr, if_false, reduceIte] at herr ⊢
            cases hlk : getLike s ⟨payload.id, inp.postId, inp.like⟩ with
            | none => simp [hlk] at herr
            | some likeDB =>
              simp only [hlk] at herr ⊢
              by_cases hsame : likeDB.like = inp.like
              · simp [hsame] at herr
              · simp [hsame] at herr
  · intro hinv hu
    exact putLike_step_preserved gp inp s hinv hu

/-- Witness for C8: an invalid-token call errors and returns the sample state
unchanged. -/
theorem putLike_atomic_witness :
    (putLike gp0 ⟨"p001", true, "bad"⟩ s0).1 = .error (.badRequest "Token inválido") ∧
    (putLike gp0 ⟨"p001", true, "bad"⟩ s0).2 = s0 :=
  ⟨rfl,
    (putLike_atomic gp0 ⟨"p001", true, "bad"⟩ s0).1 (.badRequest "Token inválido") rfl⟩

end Labook
